import Mathlib

/-!
Shallow embedding of `src/main.go` (TitikKondisi backend aggregator).

Go `float64` arithmetic is modelled exactly over `ℚ`; Go `int` over `ℤ`;
Go errors over `Option String` in the `(value, error)` return style of Go.
Each definition mirrors the correspondingly named Go function.
-/

namespace TitikKondisi

/-- Go errors are modelled by their message string. -/
abbrev Err := String

/-- `WeatherData` struct of main.go (fields in source order). -/
structure WeatherData where
  temperature : ℚ
  precipitation : ℚ
  cloudCover : ℤ
  uvIndex : ℚ
  aqi : ℤ
deriving DecidableEq

/-- `SunData` struct of main.go. -/
structure SunData where
  sunrise : String
  sunset : String
  goldenHour : String
deriving DecidableEq

/-- `MoonData` struct of main.go. -/
structure MoonData where
  phaseName : String
  illumination : ℚ
deriving DecidableEq

/-- `CalculatedIndices` struct of main.go. -/
structure CalculatedIndices where
  hikingIndex : ℚ
  hikingRecommendation : String
deriving DecidableEq

/-- `ConsolidatedResponse` struct of main.go. -/
structure ConsolidatedResponse where
  weather : WeatherData
  sun : SunData
  moon : MoonData
  indices : CalculatedIndices
deriving DecidableEq

/-- Go zero value `WeatherData{}`. -/
def WeatherData.zero : WeatherData := ⟨0, 0, 0, 0, 0⟩

/-- Go zero value `SunData{}`. -/
def SunData.zero : SunData := ⟨"", "", ""⟩

/-- Go zero value `MoonData{}`. -/
def MoonData.zero : MoonData := ⟨"", 0⟩

/-- Go zero value `CalculatedIndices{}`. -/
def CalculatedIndices.zero : CalculatedIndices := ⟨0, ""⟩

/-- Go zero value `ConsolidatedResponse{}`. -/
def ConsolidatedResponse.zero : ConsolidatedResponse :=
  ⟨WeatherData.zero, SunData.zero, MoonData.zero, CalculatedIndices.zero⟩

/-! ### Moon phase (lines 231-264 of main.go) -/

/-- The synodic month constant `29.53058867` of `calculateMoonPhase`. -/
def synodicMonth : ℚ := 29.53058867

/-- Truncation toward zero of a rational, as Go float-to-int truncation
underlying `math.Mod` and `math.Round` semantics. -/
def ratTrunc (q : ℚ) : ℤ := q.num.tdiv q.den

/-- Go `math.Mod x y = x - y*Trunc(x/y)` (result carries the sign of `x`). -/
def goMod (x y : ℚ) : ℚ := x - y * (ratTrunc (x / y) : ℚ)

/-- Go `math.Round`: round to the nearest integer, halves away from zero,
i.e. `Trunc(x + 0.5)` for `x ≥ 0` and `Trunc(x - 0.5)` for `x < 0`. -/
def goRound (q : ℚ) : ℚ :=
  if 0 ≤ q then ((ratTrunc (q + 1/2) : ℤ) : ℚ) else ((ratTrunc (q - 1/2) : ℤ) : ℚ)

/-- The `switch` on `phase` in `calculateMoonPhase` (lines 238-255),
with the source's Indonesian phase-name strings. -/
def phaseNameOf (phase : ℚ) : String :=
  if phase < 0.03 ∨ phase > 0.97 then "Bulan Baru"
  else if phase < 0.25 then "Sabit Awal"
  else if phase < 0.27 then "Kuartal Pertama"
  else if phase < 0.50 then "Cembung Awal"
  else if phase < 0.53 then "Bulan Purnama"
  else if phase < 0.75 then "Cembung Akhir"
  else if phase < 0.77 then "Kuartal Akhir"
  else "Sabit Akhir"

/-- `calculateMoonPhase` of main.go, parameterised by
`days = now.Sub(newMoon).Hours()/24`, the fractional days elapsed since the
reference new moon 2000-01-06T18:14:00Z (negative for earlier instants).
Note the source applies no clamp to the illumination. -/
def calculateMoonPhase (days : ℚ) : MoonData :=
  let phase := goMod days synodicMonth / synodicMonth
  let illum0 := if phase > 0.5 then 1 - phase else phase
  let illum := illum0 * 2
  { phaseName := phaseNameOf phase
    illumination := goRound (illum * 100) / 100 }

/-! ### Arithmetic lemmas about `ratTrunc`, `goMod`, `goRound` -/

theorem ratTrunc_eq_floor {q : ℚ} (h : 0 ≤ q) : ratTrunc q = ⌊q⌋ := by
  unfold ratTrunc
  rw [Int.tdiv_eq_ediv (Rat.num_nonneg.mpr h) (Int.natCast_nonneg q.den)]
  exact (Rat.floor_def).symm

theorem ratTrunc_neg (q : ℚ) : ratTrunc (-q) = -ratTrunc q := by
  unfold ratTrunc
  rw [Rat.num_neg_eq_neg_num, Rat.den_neg_eq_den, Int.neg_tdiv]

theorem goMod_eq_sub_floor {x y : ℚ} (hx : 0 ≤ x) (hy : 0 < y) :
    goMod x y = x - y * (⌊x / y⌋ : ℚ) := by
  unfold goMod
  rw [ratTrunc_eq_floor (div_nonneg hx hy.le)]

theorem goMod_nonneg {x y : ℚ} (hx : 0 ≤ x) (hy : 0 < y) : 0 ≤ goMod x y := by
  rw [goMod_eq_sub_floor hx hy]
  have h1 : (⌊x / y⌋ : ℚ) ≤ x / y := Int.floor_le _
  have h2 : y * (⌊x / y⌋ : ℚ) ≤ y * (x / y) := by
    exact mul_le_mul_of_nonneg_left h1 hy.le
  rw [mul_div_cancel₀ x hy.ne'] at h2
  linarith

theorem goMod_lt {x y : ℚ} (hx : 0 ≤ x) (hy : 0 < y) : goMod x y < y := by
  rw [goMod_eq_sub_floor hx hy]
  have h1 : x / y < (⌊x / y⌋ : ℚ) + 1 := Int.lt_floor_add_one _
  have h2 : y * (x / y) < y * ((⌊x / y⌋ : ℚ) + 1) := by
    exact mul_lt_mul_of_pos_left h1 hy
  rw [mul_div_cancel₀ x hy.ne'] at h2
  nlinarith

theorem goMod_add_right {x y : ℚ} (hx : 0 ≤ x) (hy : 0 < y) :
    goMod (x + y) y = goMod x y := by
  rw [goMod_eq_sub_floor (by linarith) hy, goMod_eq_sub_floor hx hy]
  have hdiv : (x + y) / y = x / y + 1 := by
    field_simp
  rw [hdiv]
  have : ⌊x / y + (1 : ℚ)⌋ = ⌊x / y⌋ + 1 := by
    exact_mod_cast Int.floor_add_int (x / y) 1
  rw [this]
  push_cast
  ring

theorem goRound_nonneg {q : ℚ} (hq : 0 ≤ q) : 0 ≤ goRound q := by
  unfold goRound
  rw [if_pos hq, ratTrunc_eq_floor (by linarith)]
  have : (0 : ℤ) ≤ ⌊q + 1/2⌋ :=
    Int.le_floor.mpr (by exact_mod_cast (by linarith : (0 : ℚ) ≤ q + 1/2))
  exact_mod_cast this

theorem goRound_le_int {q : ℚ} {n : ℤ} (hq : 0 ≤ q) (h : q ≤ (n : ℚ)) :
    goRound q ≤ (n : ℚ) := by
  unfold goRound
  rw [if_pos hq, ratTrunc_eq_floor (by linarith)]
  have hle : ⌊q + 1/2⌋ ≤ n := by
    rw [Int.floor_le_iff]
    linarith
  exact_mod_cast hle

theorem goRound_intCast (n : ℤ) : goRound (n : ℚ) = (n : ℚ) := by
  unfold goRound
  by_cases h : (0 : ℚ) ≤ (n : ℚ)
  · rw [if_pos h, ratTrunc_eq_floor (by linarith)]
    have : ⌊(n : ℚ) + 1/2⌋ = n := by
      rw [show (n : ℚ) + 1/2 = 1/2 + (n : ℚ) by ring]
      rw [Int.floor_add_int]
      norm_num
    rw [this]
  · rw [if_neg h]
    have : (n : ℚ) - 1/2 = -(((-n : ℤ) : ℚ) + 1/2) := by push_cast; ring
    rw [this, ratTrunc_neg, ratTrunc_eq_floor]
    · have hfl : ⌊((-n : ℤ) : ℚ) + 1/2⌋ = -n := by
        rw [show ((-n : ℤ) : ℚ) + 1/2 = 1/2 + ((-n : ℤ) : ℚ) by ring]
        rw [Int.floor_add_int]
        norm_num
      rw [hfl]
      push_cast
      ring
    · push_cast at h ⊢
      linarith

/-! ### Hiking index (lines 267-314 of main.go) -/

/-- The penalty cascade of `calculateIndices` before the clamp: start at 10,
subtract each triggered penalty (Go `int` arithmetic). -/
def rawScore (w : WeatherData) : ℤ :=
  let s : ℤ := 10
  let s := if w.temperature > 33 then s - 3 else if w.temperature < 18 then s - 2 else s
  let s := if w.precipitation > 1 then s - 4 else s
  let s := if w.uvIndex > 8 then s - 2 else s
  let s := if w.aqi > 100 then s - 3 else s
  let s := if w.cloudCover > 80 then s - 1 else s
  s

/-- The clamp `if score < 0 { score = 0 } else if score > 10 { score = 10 }`. -/
def clampedScore (w : WeatherData) : ℤ :=
  let s := rawScore w
  if s < 0 then 0 else if s > 10 then 10 else s

/-- The recommendation `switch` of `calculateIndices` (lines 298-308),
applied to the clamped score, with the source's Indonesian tier strings. -/
def recommendationOf (score : ℤ) : String :=
  if score ≥ 8 then "Sangat baik untuk mendaki!"
  else if score ≥ 5 then "Cukup baik, tetapi perhatikan cuaca."
  else if score ≥ 3 then "Kurang disarankan, kondisi tidak ideal."
  else "Tidak disarankan untuk mendaki hari ini."

/-- `calculateIndices` of main.go: clamp, pick the tier, and return
`math.Round(float64(score)*10)/10` as the index. -/
def calculateIndices (w : WeatherData) : CalculatedIndices :=
  { hikingIndex := goRound ((clampedScore w : ℚ) * 10) / 10
    hikingRecommendation := recommendationOf (clampedScore w) }

/-! ### fetchWeatherData (lines 127-191 of main.go)

The two HTTP interactions are abstracted by their outcomes: the primary
call may fail at transport, carry a non-200 status, or fail to decode;
the AQI call may fail at transport, and its body decode either fails
(leaving the zero-valued struct, i.e. an empty series — the Go code only
logs that error) or yields an hourly AQI series. -/

/-- Outcome of running `json.NewDecoder(body).Decode` for a payload of
type `α`: a decode error message, or the decoded value. -/
inductive Decoded (α : Type) where
  | fail (msg : String)
  | ok (v : α)
deriving DecidableEq

/-- The fields of the anonymous `weatherResult.Current` struct. -/
structure WeatherCurrent where
  temperature : ℚ
  precipitation : ℚ
  cloudCover : ℤ
  uvIndex : ℚ
deriving DecidableEq

/-- An HTTP response as `fetchWeatherData` consumes it: status code,
status text, and the decode outcome of its body. -/
structure HttpResp (α : Type) where
  statusCode : ℤ
  status : String
  body : Decoded α
deriving DecidableEq

/-- `fetchWeatherData` of main.go, parameterised by the outcome of the
primary weather HTTP call (`resp1`) and of the AQI HTTP call (`resp2`,
no status check in the source; a body decode failure is only logged and
leaves the zero-valued result, hence an empty series). Returns the Go
`(WeatherData, error)` pair. -/
def fetchWeatherData (resp1 : Except Err (HttpResp WeatherCurrent))
    (resp2 : Except Err (Decoded (List ℤ))) : WeatherData × Option Err :=
  match resp1 with
  | .error e => (WeatherData.zero, some ("weather fetch error: " ++ e))
  | .ok r1 =>
    if r1.statusCode ≠ 200 then
      (WeatherData.zero, some ("weather bad response: " ++ r1.status))
    else
      match r1.body with
      | .fail e => (WeatherData.zero, some ("weather JSON decode error: " ++ e))
      | .ok cur =>
        match resp2 with
        | .error e => (WeatherData.zero, some ("aqi fetch error: " ++ e))
        | .ok d =>
          let aqiList : List ℤ := match d with | .fail _ => [] | .ok l => l
          let aqi : ℤ := (aqiList.getLast?).getD 0
          ({ temperature := cur.temperature
             precipitation := cur.precipitation
             cloudCover := cur.cloudCover
             uvIndex := cur.uvIndex
             aqi := aqi }, none)

/-! ### getConsolidatedData (lines 88-124 of main.go)

The function is parameterised by the `(value, error)` pairs the two
goroutines deposit in `(weather, err1)` and `(sun, err2)`, and by the
`days` argument of the moon computation (the goroutine scheduling itself
is modelled separately below). -/

/-- `getConsolidatedData` after the `wg.Wait()` join: check `err1`, then
`err2`, else assemble the response from the two results. -/
def getConsolidatedData (wres : WeatherData × Option Err)
    (sres : SunData × Option Err) (days : ℚ) : ConsolidatedResponse × Option Err :=
  match wres.2 with
  | some e1 => (ConsolidatedResponse.zero, some e1)
  | none =>
    match sres.2 with
    | some e2 => (ConsolidatedResponse.zero, some e2)
    | none =>
      let moon := calculateMoonPhase days
      let indices := calculateIndices wres.1
      ({ weather := wres.1, sun := sres.1, moon := moon, indices := indices }, none)

/-! ### Spec-side moon-phase bands

`inBand` and `bandName` transcribe the band table of the specification
(§4.1): eight named bands with the listed half-open thresholds. The band
names are identified with the source's Indonesian strings in the spec's
listed order (New Moon = "Bulan Baru", Waxing Crescent = "Sabit Awal",
First Quarter = "Kuartal Pertama", Waxing Gibbous = "Cembung Awal",
Full Moon = "Bulan Purnama", Waning Gibbous = "Cembung Akhir",
Last Quarter = "Kuartal Akhir", Waning Crescent = "Sabit Akhir"). -/

/-- The eight named moon-phase bands of the specification. -/
inductive Band where
  | newMoon
  | waxingCrescent
  | firstQuarter
  | waxingGibbous
  | fullMoon
  | waningGibbous
  | lastQuarter
  | waningCrescent
deriving DecidableEq

/-- Membership of a phase value in a band, with the thresholds exactly as
the specification lists them. -/
def inBand (b : Band) (p : ℚ) : Prop :=
  match b with
  | .newMoon => (0 ≤ p ∧ p < 0.03) ∨ (0.97 < p ∧ p ≤ 1)
  | .waxingCrescent => 0.03 ≤ p ∧ p < 0.25
  | .firstQuarter => 0.25 ≤ p ∧ p < 0.27
  | .waxingGibbous => 0.27 ≤ p ∧ p < 0.50
  | .fullMoon => 0.50 ≤ p ∧ p < 0.53
  | .waningGibbous => 0.53 ≤ p ∧ p < 0.75
  | .lastQuarter => 0.75 ≤ p ∧ p < 0.77
  | .waningCrescent => 0.77 ≤ p ∧ p ≤ 0.97

/-- The phase-name string of each band (the source's strings, in the
spec's naming order). -/
def bandName (b : Band) : String :=
  match b with
  | .newMoon => "Bulan Baru"
  | .waxingCrescent => "Sabit Awal"
  | .firstQuarter => "Kuartal Pertama"
  | .waxingGibbous => "Cembung Awal"
  | .fullMoon => "Bulan Purnama"
  | .waningGibbous => "Cembung Akhir"
  | .lastQuarter => "Kuartal Akhir"
  | .waningCrescent => "Sabit Akhir"

/-! ### The goroutine fan-out/fan-in of getConsolidatedData (lines 88-106)

A small transition system over the state the Go routine pair manipulates:
each goroutine fills exactly its own `(value, error)` slot (`weather, err1`
and `sun, err2`), and the main task passes `wg.Wait()` only once both have
run `wg.Done()`. `r1` and `r2` are the values the two fetches deliver. -/

/-- The join-relevant state of one `getConsolidatedData` invocation:
the two result slots (`none` = the goroutine has not finished) and
whether the main task has passed `wg.Wait()`. -/
structure AggState where
  slot1 : Option (WeatherData × Option Err)
  slot2 : Option (SunData × Option Err)
  joined : Bool
deriving DecidableEq

/-- Initial state: no goroutine finished, `wg.Wait()` not passed. -/
def AggState.init : AggState := ⟨none, none, false⟩

/-- One scheduling step: either goroutine may complete (writing only its
own slot), and the main task may pass the join only when both are done. -/
inductive AggStep (r1 : WeatherData × Option Err) (r2 : SunData × Option Err) :
    AggState → AggState → Prop where
  | task1 (s : AggState) (h : s.slot1 = none) :
      AggStep r1 r2 s { s with slot1 := some r1 }
  | task2 (s : AggState) (h : s.slot2 = none) :
      AggStep r1 r2 s { s with slot2 := some r2 }
  | join (s : AggState) (h1 : s.slot1.isSome) (h2 : s.slot2.isSome)
      (h : s.joined = false) :
      AggStep r1 r2 s { s with joined := true }

/-- States reachable from `AggState.init` by scheduling steps. -/
inductive AggReachable (r1 : WeatherData × Option Err)
    (r2 : SunData × Option Err) : AggState → Prop where
  | init : AggReachable r1 r2 AggState.init
  | step {s s' : AggState} : AggReachable r1 r2 s → AggStep r1 r2 s s' →
      AggReachable r1 r2 s'

/-! ### Helper lemmas -/

theorem calculateMoonPhase_eval (days : ℚ) :
    calculateMoonPhase days =
      { phaseName := phaseNameOf (goMod days synodicMonth / synodicMonth)
        illumination :=
          goRound ((if goMod days synodicMonth / synodicMonth > 0.5
              then 1 - goMod days synodicMonth / synodicMonth
              else goMod days synodicMonth / synodicMonth) * 2 * 100) / 100 } := rfl

theorem synodicMonth_pos : (0 : ℚ) < synodicMonth := by
  unfold synodicMonth; norm_num

theorem hikingIndex_eq (w : WeatherData) :
    (calculateIndices w).hikingIndex = (clampedScore w : ℚ) := by
  unfold calculateIndices
  have hcast : ((clampedScore w : ℚ)) * 10 = ((clampedScore w * 10 : ℤ) : ℚ) := by
    push_cast; ring
  simp only [hcast, goRound_intCast]
  push_cast
  ring

theorem clampedScore_bounds (w : WeatherData) :
    0 ≤ clampedScore w ∧ clampedScore w ≤ 10 := by
  unfold clampedScore
  by_cases h1 : rawScore w < 0
  · simp [h1]
  · by_cases h2 : rawScore w > 10
    · simp [h1, h2]
    · simp only [h1, h2, if_false]
      omega

theorem rawScore_le_ten (w : WeatherData) : rawScore w ≤ 10 := by
  simp only [rawScore]
  split_ifs <;> omega

/-! ### Claim theorems -/

/-- Claim C1: if either goroutine's fetch reported an error,
`getConsolidatedData` returns the zero-value `ConsolidatedResponse`
together with a non-nil error, and it returns a nil error only when both
fetches succeeded — never a partially populated response. -/
theorem getConsolidatedData_no_partial_result
    (wres : WeatherData × Option Err) (sres : SunData × Option Err) (days : ℚ) :
    ((wres.2 ≠ none ∨ sres.2 ≠ none) →
      (getConsolidatedData wres sres days).1 = ConsolidatedResponse.zero ∧
      (getConsolidatedData wres sres days).2 ≠ none) ∧
    ((getConsolidatedData wres sres days).2 = none →
      wres.2 = none ∧ sres.2 = none) := by
  obtain ⟨w, e1⟩ := wres
  obtain ⟨s, e2⟩ := sres
  cases e1 <;> cases e2 <;> simp [getConsolidatedData]

/-- Witness for C1 at a concrete failing input: the weather fetch failed,
the sun fetch succeeded, and the aggregator returns the zero response with
a non-nil error. -/
theorem getConsolidatedData_no_partial_result_witness :
    (getConsolidatedData (WeatherData.zero, some "weather fetch error: boom")
        (SunData.zero, none) 0).1 = ConsolidatedResponse.zero ∧
    (getConsolidatedData (WeatherData.zero, some "weather fetch error: boom")
        (SunData.zero, none) 0).2 ≠ none :=
  (getConsolidatedData_no_partial_result
    (WeatherData.zero, some "weather fetch error: boom")
    (SunData.zero, none) 0).1 (Or.inl (by simp))

/-- Claim C8: when both fetches fail, `getConsolidatedData` reports the
weather goroutine's error (`err1`), not the sun goroutine's error. -/
theorem getConsolidatedData_error_precedence (w : WeatherData) (s : SunData)
    (e1 e2 : Err) (days : ℚ) :
    getConsolidatedData (w, some e1) (s, some e2) days =
      (ConsolidatedResponse.zero, some e1) := rfl

/-- Claim C3: the hiking index is always in `[0, 10]`, and when all five
penalties fire simultaneously the pre-clamp score is `10-3-4-2-3-1 = -3`
and the returned index is `0`. -/
theorem hikingIndex_clamp_invariant (w : WeatherData) :
    (0 ≤ (calculateIndices w).hikingIndex ∧ (calculateIndices w).hikingIndex ≤ 10) ∧
    (w.temperature > 33 → w.precipitation > 1 → w.uvIndex > 8 → w.aqi > 100 →
      w.cloudCover > 80 →
      rawScore w = -3 ∧ (calculateIndices w).hikingIndex = 0) := by
  obtain ⟨hlo, hhi⟩ := clampedScore_bounds w
  constructor
  · rw [hikingIndex_eq]
    constructor
    · exact_mod_cast hlo
    · exact_mod_cast hhi
  · intro h1 h2 h3 h4 h5
    have hraw : rawScore w = -3 := by
      simp only [rawScore]
      rw [if_pos h1, if_pos h2, if_pos h3, if_pos h4, if_pos h5]
      norm_num
    refine ⟨hraw, ?_⟩
    rw [hikingIndex_eq]
    simp only [clampedScore]
    rw [hraw]
    norm_num

/-- Witness for C3 at a concrete input firing all five penalties
(temperature 34, precipitation 2, cloud cover 81, UV 9, AQI 101). -/
theorem hikingIndex_clamp_invariant_witness :
    (0 ≤ (calculateIndices ⟨34, 2, 81, 9, 101⟩).hikingIndex ∧
      (calculateIndices ⟨34, 2, 81, 9, 101⟩).hikingIndex ≤ 10) ∧
    (rawScore ⟨34, 2, 81, 9, 101⟩ = -3 ∧
      (calculateIndices ⟨34, 2, 81, 9, 101⟩).hikingIndex = 0) :=
  ⟨(hikingIndex_clamp_invariant ⟨34, 2, 81, 9, 101⟩).1,
    (hikingIndex_clamp_invariant ⟨34, 2, 81, 9, 101⟩).2
      (by norm_num) (by norm_num) (by norm_num) (by norm_num) (by norm_num)⟩

/-- Claim C7: on the scenario input (temperature 35, precipitation 0,
cloud cover 20, UV 5, AQI 50) `calculateIndices` returns index 7 with the
"fair, watch conditions" tier string, and in general the clamped score
maps to the four tiers at the thresholds 8, 5 and 3. -/
theorem calculateIndices_scenario_and_tiers :
    calculateIndices ⟨35, 0, 20, 5, 50⟩ =
      ⟨7, "Cukup baik, tetapi perhatikan cuaca."⟩ ∧
    ∀ w : WeatherData,
      (8 ≤ clampedScore w →
        (calculateIndices w).hikingRecommendation = "Sangat baik untuk mendaki!") ∧
      (5 ≤ clampedScore w → clampedScore w < 8 →
        (calculateIndices w).hikingRecommendation =
          "Cukup baik, tetapi perhatikan cuaca.") ∧
      (3 ≤ clampedScore w → clampedScore w < 5 →
        (calculateIndices w).hikingRecommendation =
          "Kurang disarankan, kondisi tidak ideal.") ∧
      (clampedScore w < 3 →
        (calculateIndices w).hikingRecommendation =
          "Tidak disarankan untuk mendaki hari ini.") := by
  constructor
  · have hraw : rawScore ⟨35, 0, 20, 5, 50⟩ = 7 := by
      simp only [rawScore]
      norm_num
    have hcl : clampedScore ⟨35, 0, 20, 5, 50⟩ = 7 := by
      simp only [clampedScore]
      rw [hraw]
      norm_num
    unfold calculateIndices
    rw [hcl]
    have h70 : (((7 : ℤ) : ℚ)) * 10 = ((70 : ℤ) : ℚ) := by norm_num
    rw [h70, goRound_intCast]
    simp only [CalculatedIndices.mk.injEq]
    constructor
    · norm_num
    · unfold recommendationOf
      norm_num
  · intro w
    refine ⟨?_, ?_, ?_, ?_⟩
    · intro h8
      show recommendationOf (clampedScore w) = _
      unfold recommendationOf
      rw [if_pos (by omega : clampedScore w ≥ 8)]
    · intro h5 h8
      show recommendationOf (clampedScore w) = _
      unfold recommendationOf
      rw [if_neg (by omega : ¬ clampedScore w ≥ 8),
        if_pos (by omega : clampedScore w ≥ 5)]
    · intro h3 h5
      show recommendationOf (clampedScore w) = _
      unfold recommendationOf
      rw [if_neg (by omega : ¬ clampedScore w ≥ 8),
        if_neg (by omega : ¬ clampedScore w ≥ 5),
        if_pos (by omega : clampedScore w ≥ 3)]
    · intro h3
      show recommendationOf (clampedScore w) = _
      unfold recommendationOf
      rw [if_neg (by omega : ¬ clampedScore w ≥ 8),
        if_neg (by omega : ¬ clampedScore w ≥ 5),
        if_neg (by omega : ¬ clampedScore w ≥ 3)]

/-- Witness for C7: the tier map applied at the scenario input, whose
clamped score is 7, yields the "fair, watch conditions" tier. -/
theorem calculateIndices_scenario_and_tiers_witness :
    calculateIndices ⟨35, 0, 20, 5, 50⟩ =
      ⟨7, "Cukup baik, tetapi perhatikan cuaca."⟩ ∧
    (calculateIndices ⟨35, 0, 20, 5, 50⟩).hikingRecommendation =
      "Cukup baik, tetapi perhatikan cuaca." := by
  refine ⟨calculateIndices_scenario_and_tiers.1, ?_⟩
  have h5 : (5 : ℤ) ≤ clampedScore ⟨35, 0, 20, 5, 50⟩ := by
    norm_num [clampedScore, rawScore]
  have h8 : clampedScore ⟨35, 0, 20, 5, 50⟩ < 8 := by
    norm_num [clampedScore, rawScore]
  exact ((calculateIndices_scenario_and_tiers.2 ⟨35, 0, 20, 5, 50⟩).2.1) h5 h8

/-- Claim C10: the hiking index is an integer-valued rational among
`{0, 1, ..., 10}`, the final `math.Round(score*10)/10` step is the
identity on the clamped score, and the pre-clamp score never exceeds 10
(the upper clamp branch is unreachable). -/
theorem hikingIndex_integer_valued (w : WeatherData) :
    (∃ n : ℕ, n ≤ 10 ∧ (calculateIndices w).hikingIndex = (n : ℚ)) ∧
    goRound ((clampedScore w : ℚ) * 10) / 10 = (clampedScore w : ℚ) ∧
    rawScore w ≤ 10 := by
  obtain ⟨hlo, hhi⟩ := clampedScore_bounds w
  refine ⟨⟨(clampedScore w).toNat, ?_, ?_⟩, ?_, rawScore_le_ten w⟩
  · omega
  · rw [hikingIndex_eq]
    congr 1
    omega
  · exact hikingIndex_eq w

/-- Counterexample to claim C2 as stated: the primary weather call fully
succeeds (status 200, body decodes) yet an AQI transport failure makes
`fetchWeatherData` fail instead of degrading to `AQI = 0`. -/
theorem fetchWeatherData_aqi_transport_fatal :
    (fetchWeatherData (.ok ⟨200, "200 OK", .ok ⟨25, 0, 10, 3⟩⟩)
      (.error "dial tcp: i/o timeout")).2 ≠ none := by
  simp [fetchWeatherData]

/-- Claim C2 (amended): when the primary weather sub-call succeeds, an AQI
body-decode failure or an empty/absent hourly series is non-fatal —
`fetchWeatherData` succeeds with `AQI = 0` and the other fields taken from
the primary response — but an AQI transport failure is fatal. -/
theorem fetchWeatherData_aqi_decode_nonfatal
    (r1 : HttpResp WeatherCurrent) (cur : WeatherCurrent)
    (h200 : r1.statusCode = 200) (hbody : r1.body = .ok cur)
    (d : Decoded (List ℤ)) :
    (fetchWeatherData (.ok r1) (.ok d)).2 = none ∧
    (fetchWeatherData (.ok r1) (.ok d)).1.temperature = cur.temperature ∧
    (fetchWeatherData (.ok r1) (.ok d)).1.precipitation = cur.precipitation ∧
    (fetchWeatherData (.ok r1) (.ok d)).1.cloudCover = cur.cloudCover ∧
    (fetchWeatherData (.ok r1) (.ok d)).1.uvIndex = cur.uvIndex ∧
    ((∀ l, d = Decoded.ok l → l = []) →
      (fetchWeatherData (.ok r1) (.ok d)).1.aqi = 0) ∧
    (∀ e : Err, (fetchWeatherData (.ok r1) (.error e)).2 =
      some ("aqi fetch error: " ++ e)) := by
  obtain ⟨sc, st, body⟩ := r1
  simp only at h200 hbody
  subst h200
  subst hbody
  refine ⟨?_, ?_, ?_, ?_, ?_, ?_, ?_⟩
  · cases d <;> simp [fetchWeatherData]
  · cases d <;> simp [fetchWeatherData]
  · cases d <;> simp [fetchWeatherData]
  · cases d <;> simp [fetchWeatherData]
  · cases d <;> simp [fetchWeatherData]
  · intro hl
    cases d with
    | fail m => simp [fetchWeatherData]
    | ok l =>
      have : l = [] := hl l rfl
      subst this
      simp [fetchWeatherData]
  · intro e
    simp [fetchWeatherData]

/-- Witness for the amended C2 at a concrete input: primary call delivers
temperature 25, precipitation 0, cloud cover 10, UV 3 with status 200; the
AQI body fails to decode; the fetch succeeds with `AQI = 0`. -/
theorem fetchWeatherData_aqi_decode_nonfatal_witness :
    (fetchWeatherData (.ok ⟨200, "200 OK", .ok ⟨25, 0, 10, 3⟩⟩)
      (.ok (.fail "unexpected EOF"))).2 = none ∧
    (fetchWeatherData (.ok ⟨200, "200 OK", .ok ⟨25, 0, 10, 3⟩⟩)
      (.ok (.fail "unexpected EOF"))).1.aqi = 0 := by
  have h := fetchWeatherData_aqi_decode_nonfatal
    ⟨200, "200 OK", .ok ⟨25, 0, 10, 3⟩⟩ ⟨25, 0, 10, 3⟩ rfl rfl
    (.fail "unexpected EOF")
  exact ⟨h.1, h.2.2.2.2.2.1 (by intro l hl; cases hl)⟩

/-! ### Moon illumination evaluations -/

theorem illumination_eq (days : ℚ) :
    (calculateMoonPhase days).illumination =
      goRound ((if goMod days synodicMonth / synodicMonth > 0.5
          then 1 - goMod days synodicMonth / synodicMonth
          else goMod days synodicMonth / synodicMonth) * 2 * 100) / 100 := rfl

theorem ratTrunc_zero_of_small {q : ℚ} (h0 : 0 ≤ q) (h1 : q < 1) :
    ratTrunc q = 0 := by
  rw [ratTrunc_eq_floor h0]
  rw [Int.floor_eq_iff]
  push_cast
  constructor <;> linarith

theorem moon_neg_quarter_illum :
    (calculateMoonPhase (-(synodicMonth / 4))).illumination = -(1/2) := by
  have hne : synodicMonth ≠ 0 := synodicMonth_pos.ne'
  have hdiv : -(synodicMonth / 4) / synodicMonth = -(1/4) := by
    field_simp
    ring
  have ht : ratTrunc (-(1/4) : ℚ) = 0 := by
    rw [show (-(1/4) : ℚ) = -((1:ℚ)/4) by norm_num, ratTrunc_neg,
      ratTrunc_zero_of_small (by norm_num) (by norm_num)]
    ring
  have hmod : goMod (-(synodicMonth / 4)) synodicMonth = -(synodicMonth / 4) := by
    unfold goMod
    rw [hdiv, ht]
    push_cast
    ring
  rw [illumination_eq, hmod, hdiv]
  rw [if_neg (by norm_num)]
  have harg : (-(1/4) : ℚ) * 2 * 100 = -(50 : ℚ) := by norm_num
  rw [harg]
  have hfifty : goRound (-(50 : ℚ)) = -50 := by
    unfold goRound
    rw [if_neg (by norm_num)]
    rw [show (-(50:ℚ) - 1/2) = -((101:ℚ)/2) by norm_num, ratTrunc_neg,
      ratTrunc_eq_floor (by norm_num)]
    have hfl : ⌊(101/2 : ℚ)⌋ = 50 := by
      rw [Int.floor_eq_iff]
      norm_num
    rw [hfl]
    norm_num
  rw [hfifty]
  norm_num

theorem moon_three_quarter_illum :
    (calculateMoonPhase (-(synodicMonth / 4) + synodicMonth)).illumination = 1/2 := by
  have hne : synodicMonth ≠ 0 := synodicMonth_pos.ne'
  have hdiv : (-(synodicMonth / 4) + synodicMonth) / synodicMonth = 3/4 := by
    field_simp
    ring
  have ht : ratTrunc ((3:ℚ)/4) = 0 := ratTrunc_zero_of_small (by norm_num) (by norm_num)
  have hmod : goMod (-(synodicMonth / 4) + synodicMonth) synodicMonth =
      -(synodicMonth / 4) + synodicMonth := by
    unfold goMod
    rw [hdiv, ht]
    push_cast
    ring
  rw [illumination_eq, hmod, hdiv]
  rw [if_pos (by norm_num)]
  have harg : ((1:ℚ) - 3/4) * 2 * 100 = (50 : ℚ) := by norm_num
  rw [harg]
  have hfifty : goRound ((50 : ℚ)) = 50 := by
    have h := goRound_intCast 50
    push_cast at h
    exact h
  rw [hfifty]
  norm_num

/-- Counterexample to claim C5 as stated: at the instant one quarter of a
synodic month before the reference new moon (`days = -synodicMonth/4`),
the illumination computed by `calculateMoonPhase` is `-0.5`, outside
`[0, 1]` — the source never clamps, and Go's `math.Mod` is negative for a
negative elapsed time. -/
theorem moon_illumination_counterexample :
    (calculateMoonPhase (-(synodicMonth / 4))).illumination < 0 := by
  rw [moon_neg_quarter_illum]
  norm_num

/-- Claim C5 (amended): for every instant at or after the reference new
moon (`0 ≤ days`), the illumination computed by `calculateMoonPhase` lies
in `[0, 1]`. -/
theorem moon_illumination_bounds (days : ℚ) (h : 0 ≤ days) :
    0 ≤ (calculateMoonPhase days).illumination ∧
      (calculateMoonPhase days).illumination ≤ 1 := by
  rw [illumination_eq]
  have hp0 : 0 ≤ goMod days synodicMonth / synodicMonth :=
    div_nonneg (goMod_nonneg h synodicMonth_pos) synodicMonth_pos.le
  have hp1 : goMod days synodicMonth / synodicMonth < 1 :=
    (div_lt_one synodicMonth_pos).mpr (goMod_lt h synodicMonth_pos)
  have hq0 : 0 ≤ (if goMod days synodicMonth / synodicMonth > 0.5
      then 1 - goMod days synodicMonth / synodicMonth
      else goMod days synodicMonth / synodicMonth) * 2 * 100 := by
    split_ifs with h5 <;> nlinarith
  have hq1 : (if goMod days synodicMonth / synodicMonth > 0.5
      then 1 - goMod days synodicMonth / synodicMonth
      else goMod days synodicMonth / synodicMonth) * 2 * 100 ≤ ((100 : ℤ) : ℚ) := by
    push_cast
    split_ifs with h5 <;> nlinarith
  constructor
  · exact div_nonneg (goRound_nonneg hq0) (by norm_num)
  · rw [div_le_one (by norm_num : (0:ℚ) < 100)]
    have hle := goRound_le_int hq0 hq1
    push_cast at hle
    linarith

/-- Witness for the amended C5 at `days = 0` (the reference new moon). -/
theorem moon_illumination_bounds_witness :
    0 ≤ (calculateMoonPhase 0).illumination ∧
      (calculateMoonPhase 0).illumination ≤ 1 :=
  moon_illumination_bounds 0 le_rfl

/-- Counterexample to claim C6 as stated: one synodic month after the
instant `days = -synodicMonth/4` the illumination is `0.5`, but at the
instant itself it is `-0.5` — periodicity fails for instants before the
reference new moon, where Go's `math.Mod` is negative. -/
theorem moon_periodicity_counterexample :
    (calculateMoonPhase (-(synodicMonth / 4) + synodicMonth)).illumination ≠
      (calculateMoonPhase (-(synodicMonth / 4))).illumination := by
  rw [moon_three_quarter_illum, moon_neg_quarter_illum]
  norm_num

/-- Claim C6 (amended): for every instant at or after the reference new
moon (`0 ≤ days`), the illumination computed one synodic month later is
the same. -/
theorem moon_illumination_periodic (days : ℚ) (h : 0 ≤ days) :
    (calculateMoonPhase (days + synodicMonth)).illumination =
      (calculateMoonPhase days).illumination := by
  rw [illumination_eq, illumination_eq, goMod_add_right h synodicMonth_pos]

/-- Witness for the amended C6 at `days = 0`. -/
theorem moon_illumination_periodic_witness :
    (calculateMoonPhase (0 + synodicMonth)).illumination =
      (calculateMoonPhase 0).illumination :=
  moon_illumination_periodic 0 le_rfl

/-! ### Moon-phase band classification -/

theorem inBand_disjoint {p : ℚ} {b b' : Band} (h : inBand b p) (h' : inBand b' p) :
    b = b' := by
  cases b <;> cases b' <;> simp only [inBand] at h h' <;>
    first
    | rfl
    | (exfalso
       rcases h with ⟨a1, a2⟩ | ⟨a1, a2⟩ <;> obtain ⟨c1, c2⟩ := h' <;> linarith)
    | (exfalso
       obtain ⟨a1, a2⟩ := h
       rcases h' with ⟨c1, c2⟩ | ⟨c1, c2⟩ <;> linarith)
    | (exfalso
       obtain ⟨a1, a2⟩ := h
       obtain ⟨c1, c2⟩ := h'
       linarith)

theorem phaseNameOf_mem {p : ℚ} (h0 : 0 ≤ p) (h1 : p < 1) :
    ∃ b : Band, inBand b p ∧ phaseNameOf p = bandName b := by
  by_cases ha : p < 0.03
  · refine ⟨.newMoon, Or.inl ⟨h0, ha⟩, ?_⟩
    unfold phaseNameOf
    rw [if_pos (Or.inl ha)]
    rfl
  · by_cases hz : p ≤ 0.97
    · have hcond : ¬(p < 0.03 ∨ p > 0.97) := by
        push_neg
        exact ⟨le_of_not_lt ha, hz⟩
      by_cases hb : p < 0.25
      · refine ⟨.waxingCrescent, ⟨le_of_not_lt ha, hb⟩, ?_⟩
        unfold phaseNameOf
        rw [if_neg hcond, if_pos hb]
        rfl
      · by_cases hc : p < 0.27
        · refine ⟨.firstQuarter, ⟨le_of_not_lt hb, hc⟩, ?_⟩
          unfold phaseNameOf
          rw [if_neg hcond, if_neg hb, if_pos hc]
          rfl
        · by_cases hd : p < 0.50
          · refine ⟨.waxingGibbous, ⟨le_of_not_lt hc, hd⟩, ?_⟩
            unfold phaseNameOf
            rw [if_neg hcond, if_neg hb, if_neg hc, if_pos hd]
            rfl
          · by_cases he : p < 0.53
            · refine ⟨.fullMoon, ⟨le_of_not_lt hd, he⟩, ?_⟩
              unfold phaseNameOf
              rw [if_neg hcond, if_neg hb, if_neg hc, if_neg hd, if_pos he]
              rfl
            · by_cases hf : p < 0.75
              · refine ⟨.waningGibbous, ⟨le_of_not_lt he, hf⟩, ?_⟩
                unfold phaseNameOf
                rw [if_neg hcond, if_neg hb, if_neg hc, if_neg hd, if_neg he,
                  if_pos hf]
                rfl
              · by_cases hg : p < 0.77
                · refine ⟨.lastQuarter, ⟨le_of_not_lt hf, hg⟩, ?_⟩
                  unfold phaseNameOf
                  rw [if_neg hcond, if_neg hb, if_neg hc, if_neg hd, if_neg he,
                    if_neg hf, if_pos hg]
                  rfl
                · refine ⟨.waningCrescent, ⟨le_of_not_lt hg, hz⟩, ?_⟩
                  unfold phaseNameOf
                  rw [if_neg hcond, if_neg hb, if_neg hc, if_neg hd, if_neg he,
                    if_neg hf, if_neg hg]
                  rfl
    · have hq : p > 0.97 := lt_of_not_le hz
      refine ⟨.newMoon, Or.inr ⟨hq, h1.le⟩, ?_⟩
      unfold phaseNameOf
      rw [if_pos (Or.inr hq)]
      rfl

/-- Claim C4: on `[0, 1)` the moon phase classification is total — every
phase value lies in exactly one of the eight spec bands — and the source's
`switch` assigns to each phase the name of the band containing it (band
names per the spec table, rendered with the source's strings). -/
theorem moon_band_classification (p : ℚ) (h0 : 0 ≤ p) (h1 : p < 1) :
    (∃! b : Band, inBand b p) ∧
    ∀ b : Band, inBand b p → phaseNameOf p = bandName b := by
  obtain ⟨b0, hmem, hname⟩ := phaseNameOf_mem h0 h1
  refine ⟨⟨b0, hmem, fun b' hb' => inBand_disjoint hb' hmem⟩, fun b hb => ?_⟩
  rw [inBand_disjoint hb hmem]
  exact hname

/-- Witness for C4 at the phase value `1/2` (exact full moon). -/
theorem moon_band_classification_witness :
    (∃! b : Band, inBand b (1/2)) ∧
    ∀ b : Band, inBand b (1/2) → phaseNameOf (1/2) = bandName b :=
  moon_band_classification (1/2) (by norm_num) (by norm_num)

/-! ### The concurrency claim -/

theorem aggReachable_invariant {r1 : WeatherData × Option Err}
    {r2 : SunData × Option Err} {s : AggState} (h : AggReachable r1 r2 s) :
    (s.slot1 = none ∨ s.slot1 = some r1) ∧
    (s.slot2 = none ∨ s.slot2 = some r2) ∧
    (s.joined = true → s.slot1 = some r1 ∧ s.slot2 = some r2) := by
  induction h with
  | init => simp [AggState.init]
  | step hr hstep ih =>
    obtain ⟨ih1, ih2, ih3⟩ := ih
    cases hstep with
    | task1 hn =>
      refine ⟨Or.inr rfl, ih2, ?_⟩
      intro hj
      simp only at hj
      obtain ⟨hs1, _⟩ := ih3 hj
      rw [hn] at hs1
      cases hs1
    | task2 hn =>
      refine ⟨ih1, Or.inr rfl, ?_⟩
      intro hj
      simp only at hj
      obtain ⟨_, hs2⟩ := ih3 hj
      rw [hn] at hs2
      cases hs2
    | join h1 h2 hj =>
      refine ⟨ih1, ih2, fun _ => ⟨?_, ?_⟩⟩
      · rcases ih1 with hn | hs
        · rw [hn] at h1
          simp at h1
        · exact hs
      · rcases ih2 with hn | hs
        · rw [hn] at h2
          simp at h2
        · exact hs

/-- Claim C9: in the goroutine model of `getConsolidatedData`, in every
reachable state, (1) the main task is past `wg.Wait()` only once both
fetch goroutines have deposited their results — a barrier, not a race;
(2)-(3) an unfinished goroutine can always take its completion step, even
when the other's deposited result is an error (no cancellation); and (4)
every step either writes exactly one goroutine's own slot, leaving the
rest of the state intact, or is the join, which requires both results. -/
theorem aggregator_concurrent_join (r1 : WeatherData × Option Err)
    (r2 : SunData × Option Err) (s : AggState) (h : AggReachable r1 r2 s) :
    (s.joined = true → s.slot1 = some r1 ∧ s.slot2 = some r2) ∧
    (s.slot1 = none → AggStep r1 r2 s { s with slot1 := some r1 }) ∧
    (s.slot2 = none → AggStep r1 r2 s { s with slot2 := some r2 }) ∧
    (∀ s', AggStep r1 r2 s s' →
      (s.slot1 = none ∧ s' = { s with slot1 := some r1 }) ∨
      (s.slot2 = none ∧ s' = { s with slot2 := some r2 }) ∨
      (s.slot1 = some r1 ∧ s.slot2 = some r2 ∧ s' = { s with joined := true })) := by
  obtain ⟨ih1, ih2, ih3⟩ := aggReachable_invariant h
  refine ⟨ih3, fun hn => AggStep.task1 s hn, fun hn => AggStep.task2 s hn, ?_⟩
  intro s' hstep
  cases hstep with
  | task1 hn => exact Or.inl ⟨hn, rfl⟩
  | task2 hn => exact Or.inr (Or.inl ⟨hn, rfl⟩)
  | join h1 h2 hj =>
    refine Or.inr (Or.inr ⟨?_, ?_, rfl⟩)
    · rcases ih1 with hno | hs
      · rw [hno] at h1
        simp at h1
      · exact hs
    · rcases ih2 with hno | hs
      · rw [hno] at h2
        simp at h2
      · exact hs

/-- Witness for C9: the theorem instantiated at the initial state (which
is reachable), with the weather goroutine destined to deliver an error and
the sun goroutine a success. -/
theorem aggregator_concurrent_join_witness :
    (AggState.init.joined = true →
      AggState.init.slot1 = some (WeatherData.zero, some "boom") ∧
      AggState.init.slot2 = some (SunData.zero, none)) ∧
    (AggState.init.slot1 = none →
      AggStep (WeatherData.zero, some "boom") (SunData.zero, none) AggState.init
        { AggState.init with slot1 := some (WeatherData.zero, some "boom") }) ∧
    (AggState.init.slot2 = none →
      AggStep (WeatherData.zero, some "boom") (SunData.zero, none) AggState.init
        { AggState.init with slot2 := some (SunData.zero, none) }) ∧
    (∀ s', AggStep (WeatherData.zero, some "boom") (SunData.zero, none)
        AggState.init s' →
      (AggState.init.slot1 = none ∧
        s' = { AggState.init with slot1 := some (WeatherData.zero, some "boom") }) ∨
      (AggState.init.slot2 = none ∧
        s' = { AggState.init with slot2 := some (SunData.zero, none) }) ∨
      (AggState.init.slot1 = some (WeatherData.zero, some "boom") ∧
        AggState.init.slot2 = some (SunData.zero, none) ∧
        s' = { AggState.init with joined := true })) :=
  aggregator_concurrent_join (WeatherData.zero, some "boom")
    (SunData.zero, none) AggState.init AggReachable.init

end TitikKondisi

